import Mathlib

/-!
Verification of the OS_City scheduling core (kernel, context, subsystem
worker template, controller, factory) against its specification.

The Python sources under `src/GP/src` are shallowly embedded:

* `Scalar` models the scalar metric/control values (int, float, bool, str);
  floats are represented by rationals, which is adequate because the claims
  only store and retrieve them, never compute with them.
* Python dictionaries with string keys are association lists in insertion
  order (`assocGet`/`assocSet` mirror `d[k]`/`d.get(k)` and `d[k] = v`).
* Mutable snapshot dictionaries are modelled with an explicit `Heap` of
  numbered cells, so that aliasing between a stored snapshot and the
  snapshot a caller holds is observable (`dict(metrics)` becomes an
  allocation of a fresh cell holding a copy).
* Fallible operations return `Except String`, mirroring raised exceptions.
-/

inductive Scalar : Type where
  | int (i : Int)
  | real (q : Rat)
  | bool (b : Bool)
  | str (s : String)
deriving DecidableEq, Repr

/-- Association-list lookup, mirroring Python `dict.get` (first, and only,
binding of a key: Python dicts keep keys unique). -/
def assocGet {κ β : Type} [DecidableEq κ] : List (κ × β) → κ → Option β
  | [], _ => none
  | p :: rest, k => if p.1 = k then some p.2 else assocGet rest k

/-- Association-list store, mirroring Python `d[k] = v`: an existing key is
overwritten in place (insertion order preserved), a new key is appended. -/
def assocSet {κ β : Type} [DecidableEq κ] : List (κ × β) → κ → β → List (κ × β)
  | [], k, v => [(k, v)]
  | p :: rest, k, v => if p.1 = k then (k, v) :: rest else p :: assocSet rest k v

/-- A Python metrics/controls dictionary: string keys to scalar values. -/
abbrev Dict := List (String × Scalar)

/-- Python `d.update(p)`: merge `p` into `d`, `p` winning on overlap. -/
def dictUpdate (d : Dict) (p : Dict) : Dict :=
  p.foldl (fun acc kv => assocSet acc kv.1 kv.2) d

theorem assocGet_assocSet {κ β : Type} [DecidableEq κ]
    (l : List (κ × β)) (k k' : κ) (v : β) :
    assocGet (assocSet l k v) k' = if k' = k then some v else assocGet l k' := by
  induction l with
  | nil =>
    simp only [assocSet, assocGet]
    by_cases h : k = k' <;> simp [h, eq_comm]
  | cons p rest ih =>
    simp only [assocSet]
    by_cases h1 : p.1 = k
    · simp only [h1, if_pos rfl, assocGet]
      by_cases h2 : k = k' <;> simp [h1, h2, eq_comm]
    · simp only [if_neg h1, assocGet]
      by_cases h2 : p.1 = k'
      · have : ¬ k' = k := fun he => h1 (he ▸ h2)
        simp [h2, this]
      · simp [h2, ih]

theorem mem_assocSet {κ β : Type} [DecidableEq κ]
    (l : List (κ × β)) (k : κ) (v : β) (q : κ × β)
    (hq : q ∈ assocSet l k v) : q ∈ l ∨ q = (k, v) := by
  induction l with
  | nil => simpa [assocSet] using hq
  | cons p rest ih =>
    simp only [assocSet] at hq
    by_cases h1 : p.1 = k
    · simp only [if_pos h1, List.mem_cons] at hq
      rcases hq with h | h
      · right; exact h
      · left; exact List.mem_cons_of_mem _ h
    · simp only [if_neg h1, List.mem_cons] at hq
      rcases hq with h | h
      · left; exact h ▸ List.mem_cons_self _ _
      · rcases ih h with h' | h'
        · left; exact List.mem_cons_of_mem _ h'
        · right; exact h'

theorem assocGet_eq_none {κ β : Type} [DecidableEq κ]
    (l : List (κ × β)) (k : κ) (h : ∀ p ∈ l, p.1 ≠ k) :
    assocGet l k = none := by
  induction l with
  | nil => rfl
  | cons p rest ih =>
    simp only [assocGet]
    rw [if_neg (h p (List.mem_cons_self _ _))]
    exact ih (fun q hq => h q (List.mem_cons_of_mem _ hq))

/-! ## Heap of mutable snapshot dictionaries

Python metric snapshots are mutable `dict` objects passed by reference.
A `Heap` maps cell addresses to dictionary contents; `dict(metrics)` in the
source is `Heap.alloc` of a copy of the contents. -/

structure Heap where
  next : Nat
  cells : List (Nat × Dict)
deriving DecidableEq

def Heap.empty : Heap := ⟨0, []⟩

def Heap.read (h : Heap) (a : Nat) : Dict :=
  (assocGet h.cells a).getD []

def Heap.write (h : Heap) (a : Nat) (d : Dict) : Heap :=
  ⟨h.next, assocSet h.cells a d⟩

/-- Allocate a fresh dictionary cell holding `d`; returns its address. -/
def Heap.alloc (h : Heap) (d : Dict) : Nat × Heap :=
  (h.next, ⟨h.next + 1, assocSet h.cells h.next d⟩)

theorem Heap.read_write_same (h : Heap) (a : Nat) (d : Dict) :
    (h.write a d).read a = d := by
  simp [Heap.read, Heap.write, assocGet_assocSet]

theorem Heap.read_write_ne (h : Heap) (a b : Nat) (d : Dict) (hab : b ≠ a) :
    (h.write a d).read b = h.read b := by
  simp [Heap.read, Heap.write, assocGet_assocSet, hab]

theorem Heap.read_alloc (h : Heap) (d : Dict) :
    (h.alloc d).2.read (h.alloc d).1 = d := by
  simp [Heap.read, Heap.alloc, assocGet_assocSet]

/-! ## CityContext (src/GP/src/core/context.py)

`_state` maps a subsystem id to `(tick, snapshot)`; the snapshot slot holds
the *address* of the stored dict, because `get_latest` hands the stored pair
back to callers by reference.  `_controls` holds scalar values, which Python
copies by value on assignment, so it needs no heap indirection. -/

structure CityContext where
  state : List (String × Nat × Nat)
  controls : Dict
deriving DecidableEq

/-- `update`: store `(tick, dict(metrics))` for the subsystem — the stored
snapshot is a fresh copy of the dict the caller passed in. -/
def CityContext.update (ctx : CityContext) (h : Heap) (subsystem : String)
    (tick : Nat) (metricsAddr : Nat) : CityContext × Heap :=
  let copied := h.alloc (h.read metricsAddr)
  ({ ctx with state := assocSet ctx.state subsystem (tick, copied.1) }, copied.2)

/-- `get_latest`: `self._state.get(subsystem)` — the stored pair itself,
including the stored snapshot's address (no copy is taken). -/
def CityContext.get_latest (ctx : CityContext) (subsystem : String) :
    Option (Nat × Nat) :=
  assocGet ctx.state subsystem

/-- `update_controls`: `self._controls.update(controls)`. -/
def CityContext.update_controls (ctx : CityContext) (controls : Dict) :
    CityContext :=
  { ctx with controls := dictUpdate ctx.controls controls }

/-- `get_control(key)` with the default argument `None`. -/
def CityContext.get_control (ctx : CityContext) (key : String) : Option Scalar :=
  assocGet ctx.controls key

/-- What a reader sees when it dereferences the snapshot address returned by
`get_latest` against a given heap. -/
def CityContext.readLatest (ctx : CityContext) (h : Heap) (subsystem : String) :
    Option (Nat × Dict) :=
  (ctx.get_latest subsystem).map (fun p => (p.1, h.read p.2))

/-! ## Subsystem factory (src/GP/src/subsystems/factory.py)

The registry maps a string type tag to a subsystem class.  An `Instance`
models a constructed `SubsystemThread`: its class, its thread name, and the
identifier computed in `SubsystemThread.__init__` as
`config.get("identifier", name.lower())`.  The concrete subsystem
constructors (`TrafficManager`, ...) only read defaulted config fields and
never raise, so construction is total here. -/

inductive SubsystemType : Type where
  | traffic
  | energy
  | waste
  | emergency
deriving DecidableEq, Repr

def SUBSYSTEM_REGISTRY : List (String × SubsystemType) :=
  [("traffic", SubsystemType.traffic),
   ("energy", SubsystemType.energy),
   ("waste", SubsystemType.waste),
   ("emergency", SubsystemType.emergency)]

/-- `cls.__name__`, the default thread name when `thread_name` is absent. -/
def subsystemClassName : SubsystemType → String
  | SubsystemType.traffic => "TrafficManager"
  | SubsystemType.energy => "EnergyGrid"
  | SubsystemType.waste => "WasteOps"
  | SubsystemType.emergency => "EmergencyUnit"

/-- The fields of one `subsystems` config entry that the factory and the
`SubsystemThread` constructor read; all further fields are opaque
pass-through to the subsystem models, which the claims do not touch. -/
structure SubsystemParams where
  typeTag : Option String
  threadName : Option String
  identifier : Option String
deriving DecidableEq, Repr

/-- A constructed subsystem thread, as far as the kernel observes it. -/
structure Instance where
  stype : SubsystemType
  name : String
  identifier : String
deriving DecidableEq, Repr

/-- `subsystem_cls(name=thread_name, config=subsystem_params)`:
the base constructor sets `identifier = config.get("identifier", name.lower())`. -/
def mkInstance (t : SubsystemType) (threadName : String)
    (ps : SubsystemParams) : Instance :=
  ⟨t, threadName, ps.identifier.getD threadName.toLower⟩

/-- `subsystem_params.get("type", subsystem_id)`: the entry's `type` value
when present, else the subsystem id itself. -/
def resolvedTag (subsystemId : String) (ps : SubsystemParams) : String :=
  ps.typeTag.getD subsystemId

/-- The configuration fields the kernel core reads: `metrics_buffer`
(already coerced by `int(...)`, default 256) and the `subsystems` mapping. -/
structure Config where
  metricsBuffer : Int
  subsystems : List (String × SubsystemParams)
deriving DecidableEq, Repr

/-- The loop body of `build_subsystems_from_config`: resolve each entry's
type tag in the registry, raising `KeyError` on an unknown tag, else
construct the instance and continue. -/
def buildFrom : List (String × SubsystemParams) → Except String (List Instance)
  | [] => Except.ok []
  | (sid, ps) :: rest =>
    match assocGet SUBSYSTEM_REGISTRY (resolvedTag sid ps) with
    | none => Except.error ("Unknown subsystem type: " ++ resolvedTag sid ps)
    | some t =>
      match buildFrom rest with
      | Except.error e => Except.error e
      | Except.ok l =>
        Except.ok (mkInstance t (ps.threadName.getD (subsystemClassName t)) ps :: l)

def build_subsystems_from_config (config : Config) : Except String (List Instance) :=
  buildFrom config.subsystems

/-! ## CityKernel (src/GP/src/core/kernel.py)

State of a `CityKernel`.  `metricsQueueCap` is the `maxsize` of the
`queue.Queue`; following Python's queue semantics a non-positive maxsize
means "unbounded".  `pauseEvent = true` models the set (running) position,
`tickEvent` the tick-open event, `running` the `_running` event,
`tickBarrier = some n` a barrier of `n` parties (`none` before bootstrap). -/

structure MetricsEvent where
  etype : String
  tick : Nat
  subsystem : String
  metrics : Dict
deriving DecidableEq, Repr

structure CityKernel where
  config : Config
  maxTicks : Option Int
  subsystems : List Instance
  running : Bool
  tickEvent : Bool
  tickBarrier : Option Nat
  tickIndex : Nat
  context : CityContext
  metricsQueueCap : Int
  metricsQueue : List MetricsEvent
  latestMetrics : List (String × Dict)
  pauseEvent : Bool
deriving DecidableEq

/-- `CityKernel.__init__(config, tick_duration, max_ticks)` (the tick
duration only times the pacing sleep, which no claim observes). -/
def CityKernel.init (config : Config) (maxTicks : Option Int) : CityKernel :=
  { config := config
    maxTicks := maxTicks
    subsystems := []
    running := false
    tickEvent := false
    tickBarrier := none
    tickIndex := 0
    context := ⟨[], []⟩
    metricsQueueCap := config.metricsBuffer
    metricsQueue := []
    latestMetrics := []
    pauseEvent := true }

/-- `bootstrap(force)`: on `force` discard workers and barrier; build the
workers from config when none are attached; fail when still empty; size the
barrier to N+1.  (`attach_kernel` only plants a back-reference.) -/
def CityKernel.bootstrap (k : CityKernel) (force : Bool) : Except String CityKernel :=
  let k1 := if force then { k with subsystems := [], tickBarrier := none } else k
  match (if k1.subsystems.isEmpty then
           (build_subsystems_from_config k1.config).map (fun l => k1.subsystems ++ l)
         else Except.ok k1.subsystems) with
  | Except.error e => Except.error e
  | Except.ok subs =>
    if subs.isEmpty then
      Except.error "No subsystems registered for the simulation"
    else
      Except.ok { k1 with subsystems := subs, tickBarrier := some (subs.length + 1) }

/-- `_should_continue`. -/
def CityKernel.should_continue (k : CityKernel) : Bool :=
  if !k.running then false
  else
    match k.maxTicks with
    | none => true
    | some m => (k.tickIndex : Int) < m

/-- One pass of the kernel main loop per schedule entry: the barrier round
either completes (tick-open set, N+1-way rendezvous, tick-open cleared, tick
incremented, pause observed set) or breaks, terminating the loop.  The
schedule is the sequence of barrier outcomes; `none` means the schedule was
too short to bring the loop to its exit. -/
inductive TickRound : Type where
  | completed
  | broken
deriving DecidableEq, Repr

def CityKernel.runLoop : List TickRound → CityKernel → Option CityKernel
  | sched, k =>
    if !k.should_continue then some k
    else
      match sched with
      | [] => none
      | TickRound.broken :: _ => some { k with tickEvent := false }
      | TickRound.completed :: rest =>
        CityKernel.runLoop rest
          { k with tickEvent := false, tickIndex := k.tickIndex + 1 }

/-- `run`: fail when not bootstrapped; set the running event; start every
subsystem thread (all of them, before the loop); run the main loop; the
`finally` clause clears the running event.  The returned list is the workers
whose `start()` was called; `none` signals a schedule too short to finish. -/
def CityKernel.run (k : CityKernel) (sched : List TickRound) :
    Except String (Option (CityKernel × List Instance)) :=
  if k.tickBarrier.isNone then
    Except.error "Kernel must be bootstrapped before running"
  else
    let k1 := { k with running := true }
    match CityKernel.runLoop sched k1 with
    | none => Except.ok none
    | some k2 => Except.ok (some ({ k2 with running := false }, k1.subsystems))

/-- `reset`: zero the tick counter, recreate the metrics queue with the same
maxsize, clear the latest-metrics cache, set the pause event, re-bootstrap
with `force=True`. -/
def CityKernel.reset (k : CityKernel) : Except String CityKernel :=
  CityKernel.bootstrap
    { k with tickIndex := 0, metricsQueue := [], latestMetrics := [],
             pauseEvent := true } true

/-- `queue.Queue.put_nowait` raises `Full` exactly when `0 < maxsize ≤ qsize`. -/
def queueFull (cap : Int) (len : Nat) : Bool :=
  decide (0 < cap) && decide (cap ≤ (len : Int))

/-- `publish_metrics(subsystem, metrics)`: read the current tick, store a
copy into the context, cache `dict(metrics)` in the latest-metrics map, and
`put_nowait` the event — dropping it (with a debug note) when the queue is
full.  Total: it never raises. -/
def CityKernel.publish_metrics (k : CityKernel) (h : Heap) (subsystem : String)
    (metricsAddr : Nat) : CityKernel × Heap :=
  let tick := k.tickIndex
  let updated := k.context.update h subsystem tick metricsAddr
  let snap := h.read metricsAddr
  let event : MetricsEvent := ⟨"metrics", tick, subsystem, snap⟩
  let queue :=
    if queueFull k.metricsQueueCap k.metricsQueue.length then k.metricsQueue
    else k.metricsQueue ++ [event]
  ({ k with context := updated.1,
            latestMetrics := assocSet k.latestMetrics subsystem snap,
            metricsQueue := queue }, updated.2)

/-- `set_control_state(controls)`: when `controls.get("paused")` is a bool,
move the pause event accordingly; then merge into the context controls. -/
def CityKernel.set_control_state (k : CityKernel) (controls : Dict) : CityKernel :=
  let k1 :=
    match assocGet controls "paused" with
    | some (Scalar.bool b) =>
      if b then { k with pauseEvent := false } else { k with pauseEvent := true }
    | _ => k
  { k1 with context := k1.context.update_controls controls }


/-! ## SimulationController (src/GP/src/core/controller.py)

`ControlState` is the dataclass of nine control fields.  Python's dataclass
fields are dynamically typed, so all fields hold a `Scalar`; `extra` models
the further instance attributes that `setattr` can create under non-field
names (shadowing class attributes such as the `to_dict` method). -/

structure ControlState where
  traffic_inflow : Scalar
  traffic_signal_bias : Scalar
  energy_base_load : Scalar
  renewable_boost : Scalar
  waste_request_rate : Scalar
  waste_fleet_size : Scalar
  emergency_override : Scalar
  emergency_staff : Scalar
  paused : Scalar
  extra : Dict
deriving DecidableEq, Repr

/-- `ControlState()` with the dataclass defaults. -/
def ControlState.defaults : ControlState :=
  ⟨Scalar.real 1, Scalar.real 1, Scalar.real 1, Scalar.real 0, Scalar.real 1,
   Scalar.int 6, Scalar.bool false, Scalar.int 8, Scalar.bool false, []⟩

/-- `to_dict`, the nine field/value pairs in declaration order. -/
def ControlState.to_dict (cs : ControlState) : Dict :=
  [("traffic_inflow", cs.traffic_inflow),
   ("traffic_signal_bias", cs.traffic_signal_bias),
   ("energy_base_load", cs.energy_base_load),
   ("renewable_boost", cs.renewable_boost),
   ("waste_request_rate", cs.waste_request_rate),
   ("waste_fleet_size", cs.waste_fleet_size),
   ("emergency_override", cs.emergency_override),
   ("emergency_staff", cs.emergency_staff),
   ("paused", cs.paused)]

/-- The nine recognized control fields of the `ControlState` dataclass. -/
def controlFieldNames : List String :=
  ["traffic_inflow", "traffic_signal_bias", "energy_base_load",
   "renewable_boost", "waste_request_rate", "waste_fleet_size",
   "emergency_override", "emergency_staff", "paused"]

/-- `setattr(self.controls, key, value)`: a field name updates the field;
any other name creates/overwrites an instance attribute of that name. -/
def ControlState.setAttr (cs : ControlState) (key : String) (v : Scalar) :
    ControlState :=
  if key = "traffic_inflow" then { cs with traffic_inflow := v }
  else if key = "traffic_signal_bias" then { cs with traffic_signal_bias := v }
  else if key = "energy_base_load" then { cs with energy_base_load := v }
  else if key = "renewable_boost" then { cs with renewable_boost := v }
  else if key = "waste_request_rate" then { cs with waste_request_rate := v }
  else if key = "waste_fleet_size" then { cs with waste_fleet_size := v }
  else if key = "emergency_override" then { cs with emergency_override := v }
  else if key = "emergency_staff" then { cs with emergency_staff := v }
  else if key = "paused" then { cs with paused := v }
  else { cs with extra := assocSet cs.extra key v }

structure SimulationController where
  kernel : CityKernel
  controls : ControlState
  threadAlive : Bool
  metricsThreadAlive : Bool
  stopEvent : Bool
  history : List (String × List (Nat × Dict))
deriving DecidableEq

def SimulationController.init (k : CityKernel) : SimulationController :=
  { kernel := k
    controls := ControlState.defaults
    threadAlive := false
    metricsThreadAlive := false
    stopEvent := false
    history := [] }

/-- `start`: when the runner thread is already alive, log a debug line and
return — nothing is raised and nothing changes.  Otherwise reset the kernel,
push the full control state, clear the stop event and launch the runner and
metrics-consumer threads.  The boolean reports whether threads were
launched. -/
def SimulationController.start (c : SimulationController) :
    Except String (SimulationController × Bool) :=
  if c.threadAlive then Except.ok (c, false)
  else
    match c.kernel.reset with
    | Except.error e => Except.error e
    | Except.ok k =>
      Except.ok
        ({ c with kernel := k.set_control_state c.controls.to_dict,
                  stopEvent := false, threadAlive := true,
                  metricsThreadAlive := true }, true)

/-- `set_control(key, value)`.  Python guards with
`hasattr(self.controls, key)`; the attribute set of a live object is
interpreter-defined (the nine fields, the `to_dict` method, every attribute
inherited from `object` and the dataclass machinery), so the predicate is a
parameter here and concrete instantiations fix what certainly holds of it.
On success Python then calls `self.controls.to_dict()`; if a previous call
stored a scalar under the name `to_dict`, that instance attribute shadows
the method and the call itself fails with a `TypeError` (Python raises
after having already set the attribute; no theorem below inspects the
state carried by that error). -/
def SimulationController.set_control (hattr : String → Bool)
    (c : SimulationController) (key : String) (v : Scalar) :
    Except String SimulationController :=
  if hattr key then
    match assocGet (c.controls.setAttr key v).extra "to_dict" with
    | some _ => Except.error "TypeError: to_dict is not callable"
    | none =>
      Except.ok { c with controls := c.controls.setAttr key v,
                         kernel := c.kernel.set_control_state
                           (c.controls.setAttr key v).to_dict }
  else Except.error ("Unknown control: " ++ key)

/-- A sample of the `hasattr` facts that certainly hold of a `ControlState`
instance: every dataclass field is an attribute, and so are the `to_dict`
method defined in the class body and `__doc__`, which every Python object
inherits. -/
def pyHasAttrSample : String → Bool :=
  fun k => controlFieldNames.contains k || k == "to_dict" || k == "__doc__"

/-! ## Subsystem worker template (src/GP/src/subsystems/base.py)

`SubsystemThread.run` is a template method driven by overridable hooks.
The hooks' outcomes are inputs of the model: each call either returns a
value or raises.  One `TickBehavior` describes one evaluation of the loop
head and, when the loop body runs, the outcomes of the four body hooks.
The schedule lists the loop iterations until the loop exits; an exhausted
schedule models the private shutdown flag being observed set. -/

inductive HookResult (α : Type) : Type where
  | ok (a : α)
  | err (e : String)
deriving DecidableEq, Repr

structure TickBehavior where
  shutdownSet : Bool
  waitResult : HookResult Bool
  beforeResult : HookResult Unit
  executeResult : HookResult Unit
  afterResult : HookResult Unit
  collectResult : HookResult (Option Dict)
deriving DecidableEq, Repr

/-- Observable calls made by a worker run, in order. -/
inductive WEvent : Type where
  | startHook
  | beforeHook
  | executeHook
  | afterHook
  | collectHook
  | publishCall (d : Dict)
  | logException (name : String)
  | stopHook
deriving DecidableEq, Repr

/-- The `while not self._shutdown.is_set() and self._wait_for_tick():` loop
with its body `before_tick; execute_tick; after_tick; collect_metrics;
publish on non-None`.  Returns the emitted events and the exception (if
any) escaping the loop. -/
def loopRun : List TickBehavior → List WEvent × Option String
  | [] => ([], none)
  | t :: rest =>
    if t.shutdownSet then ([], none)
    else
      match t.waitResult with
      | HookResult.err e => ([], some e)
      | HookResult.ok false => ([], none)
      | HookResult.ok true =>
        match t.beforeResult with
        | HookResult.err e => ([WEvent.beforeHook], some e)
        | HookResult.ok _ =>
          match t.executeResult with
          | HookResult.err e => ([WEvent.beforeHook, WEvent.executeHook], some e)
          | HookResult.ok _ =>
            match t.afterResult with
            | HookResult.err e =>
              ([WEvent.beforeHook, WEvent.executeHook, WEvent.afterHook], some e)
            | HookResult.ok _ =>
              match t.collectResult with
              | HookResult.err e =>
                ([WEvent.beforeHook, WEvent.executeHook, WEvent.afterHook,
                  WEvent.collectHook], some e)
              | HookResult.ok none =>
                let r := loopRun rest
                (WEvent.beforeHook :: WEvent.executeHook :: WEvent.afterHook ::
                  WEvent.collectHook :: r.1, r.2)
              | HookResult.ok (some d) =>
                let r := loopRun rest
                (WEvent.beforeHook :: WEvent.executeHook :: WEvent.afterHook ::
                  WEvent.collectHook :: WEvent.publishCall d :: r.1, r.2)

/-- `SubsystemThread.run`: `try: on_start(); loop  except: log; raise
finally: on_stop()`.  The `except` clause logs exceptions escaping the try
block; an exception raised by `on_stop` itself happens inside the `finally`
clause, is not caught by this `except`, and replaces a pending exception. -/
def runWorker (name : String) (onStartResult onStopResult : HookResult Unit)
    (ticks : List TickBehavior) : List WEvent × Option String :=
  let tryPart : List WEvent × Option String :=
    match onStartResult with
    | HookResult.err e => ([WEvent.startHook], some e)
    | HookResult.ok _ =>
      let r := loopRun ticks
      (WEvent.startHook :: r.1, r.2)
  let logged : List WEvent :=
    match tryPart.2 with
    | some _ => [WEvent.logException name]
    | none => []
  let events := tryPart.1 ++ logged ++ [WEvent.stopHook]
  match onStopResult with
  | HookResult.err e2 => (events, some e2)
  | HookResult.ok _ => (events, tryPart.2)

/-! ## Interleaved tick protocol (kernel.run + base.run, shared plane)

A small-step interleaving semantics of the steady tick protocol: the kernel
loop (`_tick_event.set(); barrier.wait(); _tick_event.clear();
_tick_index += 1`) against one thread per subsystem running the template
loop (`wait_for_tick` = block on the tick event, read `_running`;
`signal_tick_complete` = barrier wait; then the body, whose
context-visible actions are `get_metric` reads and `publish_metrics`).
Modelled fragment: `_running` stays set, no shutdown is issued, the pause
event is set, and no barrier breaks — i.e. ordinary mid-run ticks, the
situation the visibility claim quantifies over.  `publish_metrics` is two
atomic sections in the source (`current_tick()` under the kernel lock,
then `context.update` under the context lock), hence two steps here; its
queue and latest-cache effects are invisible to `get_metric` and elided.
Ghost fields (`releases`, `pubs`, `obs`) record protocol history and are
written by no real transition guard. -/

inductive BodyOp : Type where
  | readPeer (peer : String)
  | publish (d : Dict)
deriving DecidableEq, Repr

/-- Per-round context-visible behaviour of one worker: its context id and,
for every work round, the sequence of reads and publishes its hooks make. -/
structure WorkerProg where
  wid : String
  body : Nat → List BodyOp

structure SimParams where
  progs : List WorkerProg

def SimParams.parties (ps : SimParams) : Nat := ps.progs.length + 1

def SimParams.progBody (ps : SimParams) (i : Nat) (round : Nat) : List BodyOp :=
  match ps.progs.get? i with
  | some p => p.body round
  | none => []

def SimParams.wid (ps : SimParams) (i : Nat) : String :=
  match ps.progs.get? i with
  | some p => p.wid
  | none => ""

inductive WPc : Type where
  | waitTick
  | preBarrier
  | inBarrier
  | body (ops : List BodyOp)
  | pubWrite (t : Nat) (d : Dict) (ops : List BodyOp)
deriving DecidableEq

inductive KPc : Type where
  | setEvent
  | preBarrier
  | inBarrier
  | clearEvent
  | incTick
deriving DecidableEq

/-- A recorded `get_metric` access: which worker read which peer, during
which work round (the ghost count of barrier releases at that moment), and
the raw `(tick, snapshot)` view `Context.get_latest` returned. -/
structure SimObs where
  reader : Nat
  peer : String
  readerRound : Nat
  result : Option (Nat × Dict)
deriving DecidableEq, Repr

structure PubRec where
  subsystem : String
  tick : Nat
  metrics : Dict
deriving DecidableEq, Repr

structure ConcState where
  tickEvent : Bool
  tickIndex : Nat
  barrierCount : Nat
  releases : Nat
  kpc : KPc
  wpc : Nat → WPc
  ctx : List (String × Nat × Dict)
  pubs : List PubRec
  obs : List SimObs

inductive Act : Type where
  | kernelStep
  | workerStep (i : Nat)

/-- When the last party arrives, the barrier releases every waiting worker
into its next work round. -/
def releaseWorkers (ps : SimParams) (newRound : Nat) (self : Option Nat)
    (w : Nat → WPc) : Nat → WPc :=
  fun j =>
    if j < ps.progs.length ∧ (some j = self ∨ w j = WPc.inBarrier) then
      WPc.body (ps.progBody j newRound)
    else w j

/-- One atomic step of the chosen thread; a blocked or disabled thread
leaves the state unchanged. -/
def step (ps : SimParams) (s : ConcState) : Act → ConcState
  | Act.kernelStep =>
    match s.kpc with
    | KPc.setEvent => { s with tickEvent := true, kpc := KPc.preBarrier }
    | KPc.preBarrier =>
      if s.barrierCount + 1 = ps.parties then
        { s with barrierCount := 0, releases := s.releases + 1,
                 kpc := KPc.clearEvent,
                 wpc := releaseWorkers ps (s.releases + 1) none s.wpc }
      else { s with barrierCount := s.barrierCount + 1, kpc := KPc.inBarrier }
    | KPc.inBarrier => s
    | KPc.clearEvent => { s with tickEvent := false, kpc := KPc.incTick }
    | KPc.incTick => { s with tickIndex := s.tickIndex + 1, kpc := KPc.setEvent }
  | Act.workerStep i =>
    if i < ps.progs.length then
      match s.wpc i with
      | WPc.waitTick =>
        if s.tickEvent then
          { s with wpc := fun j => if j = i then WPc.preBarrier else s.wpc j }
        else s
      | WPc.preBarrier =>
        if s.barrierCount + 1 = ps.parties then
          { s with barrierCount := 0, releases := s.releases + 1,
                   kpc := if s.kpc = KPc.inBarrier then KPc.clearEvent else s.kpc,
                   wpc := releaseWorkers ps (s.releases + 1) (some i) s.wpc }
        else { s with barrierCount := s.barrierCount + 1,
                      wpc := fun j => if j = i then WPc.inBarrier else s.wpc j }
      | WPc.inBarrier => s
      | WPc.body [] =>
        { s with wpc := fun j => if j = i then WPc.waitTick else s.wpc j }
      | WPc.body (BodyOp.readPeer peer :: rest) =>
        { s with obs := s.obs ++ [⟨i, peer, s.releases, assocGet s.ctx peer⟩],
                 wpc := fun j => if j = i then WPc.body rest else s.wpc j }
      | WPc.body (BodyOp.publish d :: rest) =>
        { s with wpc := fun j =>
            if j = i then WPc.pubWrite s.tickIndex d rest else s.wpc j }
      | WPc.pubWrite t d rest =>
        { s with ctx := assocSet s.ctx (ps.wid i) (t, d),
                 pubs := s.pubs ++ [⟨ps.wid i, t, d⟩],
                 wpc := fun j => if j = i then WPc.body rest else s.wpc j }
    else s

def initState : ConcState :=
  { tickEvent := false, tickIndex := 0, barrierCount := 0, releases := 0,
    kpc := KPc.setEvent, wpc := fun _ => WPc.waitTick,
    ctx := [], pubs := [], obs := [] }

def execTrace (ps : SimParams) (acts : List Act) : ConcState :=
  acts.foldl (step ps) initState

/-! ## General lemmas -/

theorem assocGet_mem {κ β : Type} [DecidableEq κ]
    (l : List (κ × β)) (k : κ) (v : β) (h : assocGet l k = some v) : (k, v) ∈ l := by
  induction l with
  | nil => simp [assocGet] at h
  | cons p rest ih =>
    simp only [assocGet] at h
    by_cases h1 : p.1 = k
    · rw [if_pos h1] at h
      have hp : p = (k, v) := by
        obtain ⟨a, b⟩ := p
        simp only at h1
        simp only [Option.some.injEq] at h
        simp [h1, h]
      rw [hp]
      exact List.mem_cons_self _ _
    · rw [if_neg h1] at h
      exact List.mem_cons_of_mem _ (ih h)

deriving instance DecidableEq for Except

/-! ## Concrete fixtures used by counterexamples and witnesses -/

def cfgOne : Config := ⟨256, [("traffic", ⟨none, none, some "traffic"⟩)]⟩

def instTraffic : Instance :=
  ⟨SubsystemType.traffic, "TrafficManager", "traffic"⟩

/-- A kernel constructed with `max_ticks = 0` and bootstrapped. -/
def kernelC3 : CityKernel :=
  { CityKernel.init cfgOne (some 0) with
      subsystems := [instTraffic], tickBarrier := some 2 }

theorem kernelC3_is_bootstrapped :
    (CityKernel.init cfgOne (some 0)).bootstrap false = Except.ok kernelC3 := by
  decide

/-! ## C10 — factory: unknown-type error iff resolved tag unregistered -/

theorem buildFrom_ok_iff (l : List (String × SubsystemParams)) :
    (∃ r, buildFrom l = Except.ok r) ↔
      ∀ e ∈ l, (assocGet SUBSYSTEM_REGISTRY (resolvedTag e.1 e.2)).isSome = true := by
  induction l with
  | nil => simp [buildFrom]
  | cons e rest ih =>
    obtain ⟨sid, ps⟩ := e
    simp only [buildFrom]
    rcases hreg : assocGet SUBSYSTEM_REGISTRY (resolvedTag sid ps) with _ | t
    · simp only [List.mem_cons]
      constructor
      · rintro ⟨r, hr⟩; cases hr
      · intro h
        have := h (sid, ps) (Or.inl rfl)
        simp [hreg] at this
    · rcases hrest : buildFrom rest with e' | r
      · simp only [List.mem_cons]
        constructor
        · rintro ⟨r, hr⟩; cases hr
        · intro h
          have : ∃ r, buildFrom rest = Except.ok r :=
            ih.mpr (fun q hq => h q (Or.inr hq))
          rcases this with ⟨r, hr⟩
          rw [hrest] at hr
          cases hr
      · simp only [List.mem_cons]
        constructor
        · rintro ⟨r', _⟩ q hq
          rcases hq with hq | hq
          · subst hq; simp [hreg]
          · exact ih.mp ⟨r, hrest⟩ q hq
        · intro _; exact ⟨_, rfl⟩

theorem buildFrom_error (l : List (String × SubsystemParams)) (msg : String)
    (h : buildFrom l = Except.error msg) :
    ∃ e ∈ l, assocGet SUBSYSTEM_REGISTRY (resolvedTag e.1 e.2) = none ∧
      msg = "Unknown subsystem type: " ++ resolvedTag e.1 e.2 := by
  induction l with
  | nil => simp [buildFrom] at h
  | cons e rest ih =>
    obtain ⟨sid, ps⟩ := e
    simp only [buildFrom] at h
    rcases hreg : assocGet SUBSYSTEM_REGISTRY (resolvedTag sid ps) with _ | t
    · rw [hreg] at h
      refine ⟨(sid, ps), List.mem_cons_self _ _, hreg, ?_⟩
      cases h
      rfl
    · rw [hreg] at h
      rcases hrest : buildFrom rest with e' | r
      · rw [hrest] at h
        have he : e' = msg := by cases h; rfl
        subst he
        rcases ih hrest with ⟨q, hq, h1, h2⟩
        exact ⟨q, List.mem_cons_of_mem _ hq, h1, h2⟩
      · rw [hrest] at h
        cases h

/-- C10: `build_subsystems_from_config` succeeds exactly when every entry's
resolved type tag — the entry's `type` value when present, else the
subsystem id — is in the registry; every error it raises is the
unknown-subsystem-type error for such an unresolvable entry.  In
particular, an entry that omits `type` does not fail when its subsystem id
itself is a registered type. -/
theorem C10_factory_unknown_type (cfg : Config) :
    ((∃ r, build_subsystems_from_config cfg = Except.ok r) ↔
      ∀ e ∈ cfg.subsystems,
        (assocGet SUBSYSTEM_REGISTRY (resolvedTag e.1 e.2)).isSome = true) ∧
    (∀ msg, build_subsystems_from_config cfg = Except.error msg →
      ∃ e ∈ cfg.subsystems,
        assocGet SUBSYSTEM_REGISTRY (resolvedTag e.1 e.2) = none ∧
        msg = "Unknown subsystem type: " ++ resolvedTag e.1 e.2) :=
  ⟨buildFrom_ok_iff cfg.subsystems, fun msg h => buildFrom_error cfg.subsystems msg h⟩

/-- C10 witness: a config whose single entry omits `type` but whose id
`traffic` is registered builds successfully; one with an unknown tag fails
with the unknown-type error naming it. -/
theorem C10_factory_unknown_type_witness :
    (∃ r, build_subsystems_from_config cfgOne = Except.ok r) ∧
    (∃ e ∈ (Config.mk 256 [("plasma", ⟨none, none, none⟩)]).subsystems,
      assocGet SUBSYSTEM_REGISTRY (resolvedTag e.1 e.2) = none ∧
      "Unknown subsystem type: plasma" =
        "Unknown subsystem type: " ++ resolvedTag e.1 e.2) :=
  ⟨(C10_factory_unknown_type cfgOne).1.mpr (by decide),
   (C10_factory_unknown_type ⟨256, [("plasma", ⟨none, none, none⟩)]⟩).2
     "Unknown subsystem type: plasma" (by decide)⟩

/-! ## C8 — reset returns the kernel to Ready -/

/-- C8: whenever `reset` returns, the tick counter is 0, the metrics queue
is empty with its capacity preserved, the latest-metrics cache is empty,
the pause event is set (running position), and the kernel has been
re-bootstrapped with `force=True`: its workers are freshly built from the
config, they are non-empty, and the barrier is sized N+1.  Stated for
every kernel state, which covers every reachable one. -/
theorem C8_reset_ready (k k' : CityKernel) (h : k.reset = Except.ok k') :
    k'.tickIndex = 0 ∧ k'.metricsQueue = [] ∧
    k'.metricsQueueCap = k.metricsQueueCap ∧ k'.latestMetrics = [] ∧
    k'.pauseEvent = true ∧
    build_subsystems_from_config k.config = Except.ok k'.subsystems ∧
    k'.subsystems ≠ [] ∧
    k'.tickBarrier = some (k'.subsystems.length + 1) := by
  unfold CityKernel.reset CityKernel.bootstrap at h
  simp only [if_pos rfl, List.isEmpty_nil, if_true] at h
  rcases hb : build_subsystems_from_config k.config with e | l
  · rw [hb] at h
    simp [Except.map] at h
  · rw [hb] at h
    simp only [Except.map, List.nil_append] at h
    by_cases hl : l.isEmpty
    · rw [if_pos hl] at h
      cases h
    · rw [if_neg hl] at h
      have hk : k' = { k with
          tickIndex := 0, metricsQueue := [], latestMetrics := [],
          pauseEvent := true, subsystems := l,
          tickBarrier := some (l.length + 1) } := by
        cases h
        rfl
      subst hk
      refine ⟨rfl, rfl, rfl, rfl, rfl, ?_, ?_, rfl⟩
      · simp [hb]
      · intro hnil
        have hl2 : l = [] := hnil
        rw [hl2] at hl
        exact hl rfl

/-- C8 witness: resetting the concrete bootstrapped kernel succeeds and the
theorem's conclusions evaluate there. -/
theorem C8_reset_ready_witness :
    kernelC3.reset = Except.ok kernelC3 ∧
    (kernelC3.tickIndex = 0 ∧ kernelC3.metricsQueue = [] ∧
     kernelC3.metricsQueueCap = kernelC3.metricsQueueCap ∧
     kernelC3.latestMetrics = [] ∧ kernelC3.pauseEvent = true ∧
     build_subsystems_from_config kernelC3.config = Except.ok kernelC3.subsystems ∧
     kernelC3.subsystems ≠ [] ∧
     kernelC3.tickBarrier = some (kernelC3.subsystems.length + 1)) :=
  ⟨by decide, C8_reset_ready kernelC3 kernelC3 (by decide)⟩

/-! ## C3 — run with `max_ticks = 0` -/

/-- The claim as stated: with `max_ticks = 0`, `run` on the bootstrapped
kernel starts no subsystem workers (the started-workers component of the
run result is empty). -/
def C3_claim : Prop :=
  ∀ sched res started,
    kernelC3.run sched = Except.ok (some (res, started)) → started = []

/-- C3 counterexample: on the bootstrapped kernel with `max_ticks = 0`,
`run` returns immediately — but only after calling `start()` on every
subsystem thread, so the started-worker list is the full (non-empty)
subsystem list, not empty. -/
theorem C3_counterexample : ¬ C3_claim := by
  intro h
  have := h [] { kernelC3 with running := false } [instTraffic] (by decide)
  exact absurd this (by decide)

/-- C3 amended: with `max_ticks = 0` on a bootstrapped kernel, `run`
performs zero loop iterations and returns at once with the running event
cleared and the tick counter untouched — but it first starts all the
subsystem workers. -/
theorem runLoop_not_continue (sched : List TickRound) (k : CityKernel)
    (h : k.should_continue = false) : CityKernel.runLoop sched k = some k := by
  unfold CityKernel.runLoop
  rw [h]
  rfl

theorem C3_run_zero_max_ticks (k : CityKernel) (sched : List TickRound) (b : Nat)
    (hb : k.tickBarrier = some b) (hm : k.maxTicks = some 0) :
    k.run sched = Except.ok (some ({ k with running := false }, k.subsystems)) := by
  have hsc : ({ k with running := true, tickBarrier := some b } : CityKernel).should_continue
      = false := by
    simp only [CityKernel.should_continue, hm]
    simp
  simp only [CityKernel.run, hb, Option.isNone_some, Bool.false_eq_true, if_false]
  rw [runLoop_not_continue sched _ hsc]

/-- C3 witness for the amended theorem at the concrete kernel. -/
theorem C3_run_zero_max_ticks_witness :
    kernelC3.run [] =
      Except.ok (some ({ kernelC3 with running := false }, kernelC3.subsystems)) :=
  C3_run_zero_max_ticks kernelC3 [] 2 rfl rfl

/-! ## C4 — Controller.start while already running -/

/-- A controller whose runner thread is alive. -/
def controllerBusy : SimulationController :=
  { SimulationController.init kernelC3 with threadAlive := true }

/-- The claim as stated: `start` while the runner thread is alive raises
(fails with an error). -/
def C4_claim : Prop :=
  ∀ c : SimulationController, c.threadAlive = true → ∃ e, c.start = Except.error e

/-- C4 counterexample: `start` on a controller whose runner thread is alive
logs a debug line and returns normally — no error of any kind is raised. -/
theorem C4_counterexample : ¬ C4_claim := by
  intro h
  rcases h controllerBusy rfl with ⟨e, he⟩
  rw [show controllerBusy.start = Except.ok (controllerBusy, false) from rfl] at he
  cases he

/-- C4 amended: `start` while a runner thread is alive returns without
raising, leaves the controller (and its kernel) unchanged, and launches no
tasks. -/
theorem C4_start_already_running (c : SimulationController)
    (h : c.threadAlive = true) : c.start = Except.ok (c, false) := by
  unfold SimulationController.start
  rw [h]
  simp

/-- C4 witness for the amended theorem. -/
theorem C4_start_already_running_witness :
    controllerBusy.start = Except.ok (controllerBusy, false) :=
  C4_start_already_running controllerBusy rfl

/-! ## C2 — get_latest returns the stored pair itself, not a copy -/

/-- A heap holding one caller-owned snapshot `{"k": 1}` at address 0. -/
def heapA : Heap := (Heap.empty.alloc [("k", Scalar.int 1)]).2

/-- The context after `update("a", 0, snapshot-at-0)`; the stored copy
lives at address 1. -/
def ctxA : CityContext := (CityContext.update ⟨[], []⟩ heapA "a" 0 0).1

/-- The heap after that update. -/
def heapB : Heap := (CityContext.update ⟨[], []⟩ heapA "a" 0 0).2

/-- The claim as stated: mutating the snapshot returned by `get_latest`
leaves the snapshot stored in the context unchanged — i.e. writing through
the returned address never changes what the context's stored entry reads
as. -/
def C2_claim : Prop :=
  ∀ (ctx : CityContext) (h : Heap) (s : String) (t a : Nat) (d : Dict),
    ctx.get_latest s = some (t, a) →
    CityContext.readLatest ctx (h.write a d) s = CityContext.readLatest ctx h s

/-- C2 counterexample: `get_latest("a")` hands back the stored pair with
the stored snapshot's own address (1); writing `{"k": 2}` through it makes
the context's stored snapshot read as `{"k": 2}` — the stored snapshot
changed, so no defensive copy was taken. -/
theorem C2_counterexample : ¬ C2_claim := by
  intro hcl
  have := hcl ctxA heapB "a" 0 1 [("k", Scalar.int 2)] (by decide)
  exact absurd this (by decide)

/-- C2 amended: `get_latest` returns the absent marker when no entry
exists, and otherwise returns the stored `(tick, snapshot)` pair itself —
the returned snapshot aliases the stored one, so a mutation through it is
exactly what the context's stored entry subsequently reads as. -/
theorem C2_get_latest_alias (ctx : CityContext) (h : Heap) (s : String)
    (t a : Nat) (d : Dict) :
    ((∀ p ∈ ctx.state, p.1 ≠ s) → ctx.get_latest s = none) ∧
    (ctx.get_latest s = some (t, a) →
      CityContext.readLatest ctx (h.write a d) s = some (t, d)) := by
  constructor
  · intro habs
    exact assocGet_eq_none ctx.state s habs
  · intro hlat
    unfold CityContext.readLatest
    rw [hlat]
    simp [Heap.read_write_same]

/-- C2 witness for the amended theorem: the empty context answers absent;
on the concrete context, writing `{"k": 2}` through the returned address
is visible in the stored snapshot. -/
theorem C2_get_latest_alias_witness :
    (CityContext.get_latest ⟨[], []⟩ "a" = none) ∧
    (CityContext.readLatest ctxA (heapB.write 1 [("k", Scalar.int 2)]) "a" =
      some (0, [("k", Scalar.int 2)])) :=
  ⟨(C2_get_latest_alias ⟨[], []⟩ heapB "a" 0 1 []).1 (by simp),
   (C2_get_latest_alias ctxA heapB "a" 0 1 [("k", Scalar.int 2)]).2 (by decide)⟩

/-! ## C7 — publish_metrics: copy into context, bounded non-blocking queue -/

/-- C7: `publish_metrics` records the snapshot into the context at the
kernel's current tick index, as a copy at a fresh address — so mutating the
caller's snapshot afterwards leaves the stored snapshot unchanged — and
enqueues a `metrics` event carrying a copy when the bounded queue has
room, else drops the event and returns normally; the queue bound is
preserved.  (`publish_metrics` is total: it never raises.) -/
theorem C7_publish_metrics (k : CityKernel) (h : Heap) (s : String) (a : Nat)
    (d : Dict)
    (hvalid : a < h.next)
    (hcap : 0 < k.metricsQueueCap)
    (hlen : (k.metricsQueue.length : Int) ≤ k.metricsQueueCap) :
    ((k.publish_metrics h s a).1.context.get_latest s = some (k.tickIndex, h.next)) ∧
    ((k.publish_metrics h s a).2.read h.next = h.read a) ∧
    ((((k.publish_metrics h s a).2.write a d).read h.next) = h.read a) ∧
    (((k.publish_metrics h s a).1.metricsQueue.length : Int) ≤ k.metricsQueueCap) ∧
    ((k.metricsQueue.length : Int) < k.metricsQueueCap →
      (k.publish_metrics h s a).1.metricsQueue =
        k.metricsQueue ++ [⟨"metrics", k.tickIndex, s, h.read a⟩]) ∧
    ((k.metricsQueueCap ≤ (k.metricsQueue.length : Int)) →
      (k.publish_metrics h s a).1.metricsQueue = k.metricsQueue) := by
  have hne : h.next ≠ a := Nat.ne_of_gt hvalid
  refine ⟨?_, ?_, ?_, ?_, ?_, ?_⟩
  · simp [CityKernel.publish_metrics, CityContext.update, CityContext.get_latest,
      Heap.alloc, assocGet_assocSet]
  · simp [CityKernel.publish_metrics, CityContext.update, Heap.alloc, Heap.read,
      assocGet_assocSet]
  · rw [show (k.publish_metrics h s a).2 = (h.alloc (h.read a)).2 from rfl]
    rw [Heap.read_write_ne _ _ _ _ hne]
    exact Heap.read_alloc h (h.read a)
  · by_cases hfull : queueFull k.metricsQueueCap k.metricsQueue.length
    · simp only [CityKernel.publish_metrics, hfull, if_true]
      exact hlen
    · simp only [CityKernel.publish_metrics, hfull, Bool.false_eq_true, if_false]
      have : ¬ (0 < k.metricsQueueCap ∧ k.metricsQueueCap ≤ (k.metricsQueue.length : Int)) := by
        simpa [queueFull, Bool.and_eq_true, decide_eq_true_eq] using hfull
      push_neg at this
      have hlt := this hcap
      simp only [List.length_append, List.length_singleton]
      push_cast
      omega
  · intro hroom
    have hfull : queueFull k.metricsQueueCap k.metricsQueue.length = false := by
      simp only [queueFull, Bool.and_eq_false_iff, decide_eq_false_iff_not]
      right
      omega
    simp [CityKernel.publish_metrics, hfull]
  · intro hfull'
    have hfull : queueFull k.metricsQueueCap k.metricsQueue.length = true := by
      simp only [queueFull, Bool.and_eq_true, decide_eq_true_eq]
      exact ⟨hcap, hfull'⟩
    simp [CityKernel.publish_metrics, hfull]

/-- C7 witness: publishing `{"k": 1}` (held at address 0 of the concrete
heap) on the fresh bootstrapped kernel stores it at tick 0 and enqueues the
event. -/
theorem C7_publish_metrics_witness :
    ((kernelC3.publish_metrics heapA "traffic" 0).1.context.get_latest "traffic" =
      some (0, 1)) ∧
    ((kernelC3.publish_metrics heapA "traffic" 0).1.metricsQueue =
      [⟨"metrics", 0, "traffic", [("k", Scalar.int 1)]⟩]) := by
  have h := C7_publish_metrics kernelC3 heapA "traffic" 0 [] (by decide) (by decide)
    (by decide)
  exact ⟨h.1, by
    have h5 := h.2.2.2.2.1 (by decide)
    simpa using h5⟩

/-! ## C5 / C9 — set_control -/

theorem setAttr_extra_of_field (cs : ControlState) (key : String) (v : Scalar)
    (hk : key ∈ controlFieldNames) : (cs.setAttr key v).extra = cs.extra := by
  fin_cases hk <;> simp [ControlState.setAttr]

/-- `set_control_state` never touches the context's `_state`/`_controls`
other than merging the supplied controls (the pause event aside). -/
theorem set_control_state_controls (k : CityKernel) (ctl : Dict) :
    (k.set_control_state ctl).context.controls = dictUpdate k.context.controls ctl := by
  unfold CityKernel.set_control_state CityContext.update_controls
  rcases hp : assocGet ctl "paused" with _ | v
  · simp
  · cases v with
    | bool b => cases b <;> simp
    | int i => simp
    | real q => simp
    | str s => simp

/-- The success path of `set_control` on a recognized field, shared by the
claims about rejection and about the set/get round-trip. -/
theorem set_control_field_ok (hattr : String → Bool) (c : SimulationController)
    (key : String) (v : Scalar)
    (hk : key ∈ controlFieldNames)
    (ha : hattr key = true)
    (hex : assocGet c.controls.extra "to_dict" = none) :
    SimulationController.set_control hattr c key v =
      Except.ok { c with controls := c.controls.setAttr key v,
                         kernel := c.kernel.set_control_state
                           (c.controls.setAttr key v).to_dict } := by
  unfold SimulationController.set_control
  rw [ha]
  rw [setAttr_extra_of_field c.controls key v hk, hex]
  simp

/-- The claim as stated: every key that is not a recognized control field
is rejected by `set_control` with an UnknownControl error. -/
def C5_claim : Prop :=
  ∀ (hattr : String → Bool) (c : SimulationController) (key : String) (v : Scalar),
    (∀ f ∈ controlFieldNames, hattr f = true) →
    (hattr = pyHasAttrSample) →
    key ∉ controlFieldNames →
    (SimulationController.set_control hattr c key v).isOk = false

/-- C5 counterexample: `"__doc__"` is not a recognized control field, yet
`hasattr(self.controls, "__doc__")` is true (every Python object has
`__doc__`), so `set_control("__doc__", 1)` passes the guard and returns
normally instead of raising UnknownControl. -/
theorem C5_counterexample : ¬ C5_claim := by
  intro hcl
  have := hcl pyHasAttrSample (SimulationController.init kernelC3) "__doc__"
    (Scalar.int 1) (by decide) rfl (by decide)
  exact absurd this (by decide)

/-- C5 amended: `set_control` raises UnknownControl — leaving the
controller's local state and the kernel's control state untouched, since
the error is raised before any mutation — exactly for keys that are not
attributes of the `ControlState` object; keys that are attributes but not
control fields (the `to_dict` method, inherited names such as `__doc__`)
pass the guard, while every recognized control field succeeds. -/
theorem C5_unknown_control (hattr : String → Bool) (c : SimulationController)
    (key : String) (v : Scalar) :
    (hattr key = false →
      SimulationController.set_control hattr c key v =
        Except.error ("Unknown control: " ++ key)) ∧
    (key ∈ controlFieldNames → hattr key = true →
      assocGet c.controls.extra "to_dict" = none →
      (SimulationController.set_control hattr c key v).isOk = true) := by
  constructor
  · intro ha
    unfold SimulationController.set_control
    rw [ha]
    simp
  · intro hk ha hex
    rw [set_control_field_ok hattr c key v hk ha hex]
    rfl

/-- C5 witness: a genuinely unknown key is rejected with the UnknownControl
error; the recognized field `paused` is accepted. -/
theorem C5_unknown_control_witness :
    (SimulationController.set_control pyHasAttrSample
        (SimulationController.init kernelC3) "does_not_exist" (Scalar.int 1) =
      Except.error "Unknown control: does_not_exist") ∧
    ((SimulationController.set_control pyHasAttrSample
        (SimulationController.init kernelC3) "paused" (Scalar.bool true)).isOk
      = true) :=
  ⟨(C5_unknown_control pyHasAttrSample (SimulationController.init kernelC3)
      "does_not_exist" (Scalar.int 1)).1 (by decide),
   (C5_unknown_control pyHasAttrSample (SimulationController.init kernelC3)
      "paused" (Scalar.bool true)).2 (by decide) (by decide) (by decide)⟩

/-- C9: for every recognized control key and scalar value,
`set_control(k, v)` succeeds and afterwards `Context.get_control(k)`
returns exactly `v` — the write travels controller → kernel
(`set_control_state`) → context (`update_controls`) and reads back
unchanged. -/
theorem C9_set_get_round_trip (hattr : String → Bool) (c : SimulationController)
    (key : String) (v : Scalar)
    (hk : key ∈ controlFieldNames)
    (ha : hattr key = true)
    (hex : assocGet c.controls.extra "to_dict" = none) :
    (SimulationController.set_control hattr c key v).toOption.map
      (fun c' => c'.kernel.context.get_control key) = some (some v) := by
  rw [set_control_field_ok hattr c key v hk ha hex]
  simp only [Except.toOption, Option.map_some', CityContext.get_control]
  rw [set_control_state_controls]
  fin_cases hk <;>
    simp [ControlState.setAttr, ControlState.to_dict, dictUpdate, List.foldl,
      assocGet_assocSet]

/-- C9 witness at a concrete field and value. -/
theorem C9_set_get_round_trip_witness :
    (SimulationController.set_control pyHasAttrSample
        (SimulationController.init kernelC3) "renewable_boost"
        (Scalar.real 2)).toOption.map
      (fun c' => c'.kernel.context.get_control "renewable_boost") =
      some (some (Scalar.real 2)) :=
  C9_set_get_round_trip pyHasAttrSample (SimulationController.init kernelC3)
    "renewable_boost" (Scalar.real 2) (by decide) (by decide) (by decide)

/-! ## C6 — worker lifecycle: on_start / on_stop / exception handling -/

/-- The loop body never emits the lifecycle events `startHook`,
`stopHook` or `logException` — those belong to `runWorker`'s try/except/
finally wrapper. -/
theorem loopRun_no_lifecycle (ts : List TickBehavior) :
    WEvent.startHook ∉ (loopRun ts).1 ∧ WEvent.stopHook ∉ (loopRun ts).1 ∧
    ∀ n, WEvent.logException n ∉ (loopRun ts).1 := by
  induction ts with
  | nil => simp [loopRun]
  | cons t rest ih =>
    obtain ⟨ih1, ih2, ih3⟩ := ih
    unfold loopRun
    rcases t with ⟨sd, w, b, e, a, co⟩
    dsimp only
    cases sd
    · cases w with
      | err e' => simp
      | ok cont =>
        cases cont
        · simp
        · cases b with
          | err e' => simp
          | ok u =>
            cases e with
            | err e' => simp
            | ok u =>
              cases a with
              | err e' => simp
              | ok u =>
                cases co with
                | err e' => simp
                | ok snap =>
                  cases snap with
                  | none => simp [ih1, ih2, fun n => ih3 n]
                  | some d => simp [ih1, ih2, fun n => ih3 n]
    · simp

/-- The claim as stated, at the on_stop hook (one of the lifecycle hooks
the claim quantifies over): an exception raised inside it is logged with
the subsystem name. -/
def C6_claim : Prop :=
  ∀ (name : String) (onStartResult onStopResult : HookResult Unit)
    (ticks : List TickBehavior) (e2 : String),
    onStopResult = HookResult.err e2 →
    WEvent.logException name ∈ (runWorker name onStartResult onStopResult ticks).1

/-- C6 counterexample: an exception raised inside the `on_stop` lifecycle
hook happens in the `finally` clause, after the `except` clause of
`SubsystemThread.run` has already been passed, so it propagates without
being logged with the subsystem name. -/
theorem C6_counterexample : ¬ C6_claim := by
  intro hcl
  have := hcl "x" (HookResult.ok ()) (HookResult.err "boom") [] "boom" rfl
  exact absurd this (by decide)

/-- C6 amended: every run of the worker loop emits `on_start` exactly once,
first — before any tick work — and `on_stop` exactly once, last, whether
the exit is clean or exceptional.  An exception raised in `on_start` or in
any loop-body hook is logged with the subsystem name and re-raised past
`on_stop` (when `on_stop` itself returns normally); the run ends without
exception exactly when `on_start`, the loop and `on_stop` all return
normally.  An exception inside `on_stop` itself is the one that
propagates, and it is not logged by the worker. -/
theorem getLast?_ends {α : Type} (x y : α) (l : List α) :
    (x :: (l ++ [y])).getLast? = some y := by
  rw [show x :: (l ++ [y]) = (x :: l) ++ [y] from rfl]
  exact List.getLast?_concat _

theorem getLast?_ends2 {α : Type} (x z y : α) (l : List α) :
    (x :: (l ++ [z, y])).getLast? = some y := by
  rw [show x :: (l ++ [z, y]) = ((x :: l) ++ [z]) ++ [y] from by simp]
  exact List.getLast?_concat _

theorem C6_worker_lifecycle (name : String)
    (onStartResult onStopResult : HookResult Unit) (ticks : List TickBehavior) :
    ((runWorker name onStartResult onStopResult ticks).1.head? =
      some WEvent.startHook) ∧
    ((runWorker name onStartResult onStopResult ticks).1.count
      WEvent.startHook = 1) ∧
    ((runWorker name onStartResult onStopResult ticks).1.getLast? =
      some WEvent.stopHook) ∧
    ((runWorker name onStartResult onStopResult ticks).1.count
      WEvent.stopHook = 1) ∧
    ((runWorker name onStartResult onStopResult ticks).2 = none ↔
      (onStartResult = HookResult.ok () ∧ (loopRun ticks).2 = none ∧
       onStopResult = HookResult.ok ())) ∧
    (WEvent.logException name ∈ (runWorker name onStartResult onStopResult ticks).1 ↔
      ¬ (onStartResult = HookResult.ok () ∧ (loopRun ticks).2 = none)) ∧
    (∀ e, onStartResult = HookResult.ok () → (loopRun ticks).2 = some e →
      onStopResult = HookResult.ok () →
      (runWorker name onStartResult onStopResult ticks).2 = some e) ∧
    (∀ e, onStartResult = HookResult.err e → onStopResult = HookResult.ok () →
      (runWorker name onStartResult onStopResult ticks).2 = some e) ∧
    (∀ e2, onStopResult = HookResult.err e2 →
      (runWorker name onStartResult onStopResult ticks).2 = some e2) := by
  obtain ⟨hs, hp, hl⟩ := loopRun_no_lifecycle ticks
  rcases onStartResult with u | e0
  · rcases hloop : (loopRun ticks).2 with _ | e1
    · rcases onStopResult with u2 | e2 <;>
        simp [runWorker, hloop, List.count_append, List.count_cons,
          List.count_eq_zero.mpr hs, List.count_eq_zero.mpr hp, hl,
          getLast?_ends, getLast?_ends2]
    · rcases onStopResult with u2 | e2 <;>
        simp [runWorker, hloop, List.count_append, List.count_cons,
          List.count_eq_zero.mpr hs, List.count_eq_zero.mpr hp, hl,
          getLast?_ends, getLast?_ends2]
  · rcases onStopResult with u2 | e2 <;>
      simp [runWorker, List.count_append, List.count_cons]

/-- C6 witness: a clean run and an exceptional run of the concrete worker,
through the amended theorem. -/
theorem C6_worker_lifecycle_witness :
    ((runWorker "x" (HookResult.ok ()) (HookResult.ok ()) []).2 = none) ∧
    ((runWorker "x" (HookResult.err "b") (HookResult.ok ()) []).2 = some "b") ∧
    ((runWorker "x" (HookResult.err "b") (HookResult.ok ()) []).1.head? =
      some WEvent.startHook) :=
  ⟨(C6_worker_lifecycle "x" (HookResult.ok ()) (HookResult.ok ()) []).2.2.2.2.1.mpr
      ⟨rfl, rfl, rfl⟩,
   (C6_worker_lifecycle "x" (HookResult.err "b") (HookResult.ok ()) []).2.2.2.2.2.2.2.1
      "b" rfl rfl,
   (C6_worker_lifecycle "x" (HookResult.err "b") (HookResult.ok ()) []).1⟩

/-! ## C1 — cross-subsystem visibility under the tick barrier -/

/-- Protocol invariant: the tick counter never exceeds the release count
(and trails it strictly while the kernel is between the barrier and its
increment); the tick a publisher latched is at most the release count;
every context entry carries a tick at most the release count and was
really published; every recorded observation saw either nothing or a
really-published snapshot whose tick is at most the reader's round. -/
def ConcInv (s : ConcState) : Prop :=
  s.tickIndex ≤ s.releases ∧
  ((s.kpc = KPc.clearEvent ∨ s.kpc = KPc.incTick) → s.tickIndex + 1 ≤ s.releases) ∧
  (∀ i t d rest, s.wpc i = WPc.pubWrite t d rest → t ≤ s.releases) ∧
  (∀ e ∈ s.ctx, e.2.1 ≤ s.releases ∧ (⟨e.1, e.2.1, e.2.2⟩ : PubRec) ∈ s.pubs) ∧
  (∀ o ∈ s.obs, ∀ t d, o.result = some (t, d) →
    t ≤ o.readerRound ∧ (⟨o.peer, t, d⟩ : PubRec) ∈ s.pubs)

theorem step_preserves (ps : SimParams) (s : ConcState) (a : Act)
    (hI : ConcInv s) : ConcInv (step ps s a) := by
  obtain ⟨h1, h2, h3, h4, h5⟩ := hI
  cases a with
  | kernelStep =>
    cases hk : s.kpc with
    | setEvent =>
      simp only [step, hk]
      refine ⟨h1, ?_, h3, h4, h5⟩
      intro hh
      rcases hh with hh | hh <;> cases hh
    | preBarrier =>
      simp only [step, hk]
      by_cases hbar : s.barrierCount + 1 = ps.parties
      · rw [if_pos hbar]
        refine ⟨Nat.le_succ_of_le h1, fun _ => Nat.succ_le_succ h1, ?_, ?_, ?_⟩
        · intro i t d rest hw
          have hw2 : releaseWorkers ps (s.releases + 1) none s.wpc i =
              WPc.pubWrite t d rest := hw
          unfold releaseWorkers at hw2
          by_cases hc : i < ps.progs.length ∧
              (some i = (none : Option Nat) ∨ s.wpc i = WPc.inBarrier)
          · rw [if_pos hc] at hw2
            cases hw2
          · rw [if_neg hc] at hw2
            exact Nat.le_succ_of_le (h3 i t d rest hw2)
        · intro e he
          exact ⟨Nat.le_succ_of_le (h4 e he).1, (h4 e he).2⟩
        · exact h5
      · rw [if_neg hbar]
        refine ⟨h1, ?_, h3, h4, h5⟩
        intro hh
        rcases hh with hh | hh <;> cases hh
    | inBarrier =>
      simp only [step, hk]
      exact ⟨h1, h2, h3, h4, h5⟩
    | clearEvent =>
      simp only [step, hk]
      exact ⟨h1, fun _ => h2 (Or.inl hk), h3, h4, h5⟩
    | incTick =>
      simp only [step, hk]
      refine ⟨h2 (Or.inr hk), ?_, h3, h4, h5⟩
      intro hh
      rcases hh with hh | hh <;> cases hh
  | workerStep i =>
    by_cases hi : i < ps.progs.length
    · cases hw : s.wpc i with
      | waitTick =>
        simp only [step, hi, if_true, hw]
        by_cases hev : s.tickEvent
        · rw [if_pos hev]
          refine ⟨h1, h2, ?_, h4, h5⟩
          intro i' t d rest hw'
          have hw2 : (if i' = i then WPc.preBarrier else s.wpc i') =
              WPc.pubWrite t d rest := hw'
          by_cases hji : i' = i
          · rw [if_pos hji] at hw2
            cases hw2
          · rw [if_neg hji] at hw2
            exact h3 i' t d rest hw2
        · rw [if_neg hev]
          exact ⟨h1, h2, h3, h4, h5⟩
      | preBarrier =>
        simp only [step, hi, if_true, hw]
        by_cases hbar : s.barrierCount + 1 = ps.parties
        · rw [if_pos hbar]
          refine ⟨Nat.le_succ_of_le h1, fun _ => Nat.succ_le_succ h1, ?_, ?_, ?_⟩
          · intro i' t d rest hw'
            have hw2 : releaseWorkers ps (s.releases + 1) (some i) s.wpc i' =
                WPc.pubWrite t d rest := hw'
            unfold releaseWorkers at hw2
            by_cases hc : i' < ps.progs.length ∧
                (some i' = some i ∨ s.wpc i' = WPc.inBarrier)
            · rw [if_pos hc] at hw2
              cases hw2
            · rw [if_neg hc] at hw2
              exact Nat.le_succ_of_le (h3 i' t d rest hw2)
          · intro e he
            exact ⟨Nat.le_succ_of_le (h4 e he).1, (h4 e he).2⟩
          · exact h5
        · rw [if_neg hbar]
          refine ⟨h1, h2, ?_, h4, h5⟩
          intro i' t d rest hw'
          have hw2 : (if i' = i then WPc.inBarrier else s.wpc i') =
              WPc.pubWrite t d rest := hw'
          by_cases hji : i' = i
          · rw [if_pos hji] at hw2
            cases hw2
          · rw [if_neg hji] at hw2
            exact h3 i' t d rest hw2
      | inBarrier =>
        simp only [step, hi, if_true, hw]
        exact ⟨h1, h2, h3, h4, h5⟩
      | body ops =>
        cases ops with
        | nil =>
          simp only [step, hi, if_true, hw]
          refine ⟨h1, h2, ?_, h4, h5⟩
          intro i' t d rest hw'
          have hw2 : (if i' = i then WPc.waitTick else s.wpc i') =
              WPc.pubWrite t d rest := hw'
          by_cases hji : i' = i
          · rw [if_pos hji] at hw2
            cases hw2
          · rw [if_neg hji] at hw2
            exact h3 i' t d rest hw2
        | cons op rest0 =>
          cases op with
          | readPeer peer =>
            simp only [step, hi, if_true, hw]
            refine ⟨h1, h2, ?_, h4, ?_⟩
            · intro i' t d rest hw'
              have hw2 : (if i' = i then WPc.body rest0 else s.wpc i') =
                  WPc.pubWrite t d rest := hw'
              by_cases hji : i' = i
              · rw [if_pos hji] at hw2
                cases hw2
              · rw [if_neg hji] at hw2
                exact h3 i' t d rest hw2
            · intro o ho t d hres
              have ho2 : o ∈ s.obs ++
                  [⟨i, peer, s.releases, assocGet s.ctx peer⟩] := ho
              rcases List.mem_append.mp ho2 with ho3 | ho3
              · exact h5 o ho3 t d hres
              · rcases List.mem_singleton.mp ho3 with rfl
                have hres2 : assocGet s.ctx peer = some (t, d) := hres
                have hctx := assocGet_mem s.ctx peer (t, d) hres2
                exact ⟨(h4 (peer, t, d) hctx).1, (h4 (peer, t, d) hctx).2⟩
          | publish d0 =>
            simp only [step, hi, if_true, hw]
            refine ⟨h1, h2, ?_, h4, h5⟩
            intro i' t d rest hw'
            have hw2 : (if i' = i then WPc.pubWrite s.tickIndex d0 rest0
                else s.wpc i') = WPc.pubWrite t d rest := hw'
            by_cases hji : i' = i
            · rw [if_pos hji] at hw2
              cases hw2
              exact h1
            · rw [if_neg hji] at hw2
              exact h3 i' t d rest hw2
      | pubWrite t0 d0 rest0 =>
        simp only [step, hi, if_true, hw]
        refine ⟨h1, h2, ?_, ?_, ?_⟩
        · intro i' t d rest hw'
          have hw2 : (if i' = i then WPc.body rest0 else s.wpc i') =
              WPc.pubWrite t d rest := hw'
          by_cases hji : i' = i
          · rw [if_pos hji] at hw2
            cases hw2
          · rw [if_neg hji] at hw2
            exact h3 i' t d rest hw2
        · intro e he
          have he2 : e ∈ assocSet s.ctx (ps.wid i) (t0, d0) := he
          rcases mem_assocSet s.ctx (ps.wid i) (t0, d0) e he2 with he' | he'
          · exact ⟨(h4 e he').1, List.mem_append_left _ (h4 e he').2⟩
          · subst he'
            refine ⟨h3 i t0 d0 rest0 hw, ?_⟩
            exact List.mem_append_right _ (List.mem_singleton_self _)
        · intro o ho t d hres
          exact ⟨(h5 o ho t d hres).1, List.mem_append_left _ (h5 o ho t d hres).2⟩
    · simp only [step, hi, if_false]
      exact ⟨h1, h2, h3, h4, h5⟩

theorem concInv_init : ConcInv initState := by
  unfold ConcInv initState
  refine ⟨Nat.le_refl 0, ?_, ?_, ?_, ?_⟩ <;> intros <;> simp_all

theorem concInv_execTrace (ps : SimParams) (acts : List Act) :
    ConcInv (execTrace ps acts) := by
  unfold execTrace
  have hstep : ∀ (l : List Act) (s : ConcState),
      ConcInv s → ConcInv (l.foldl (step ps) s) := by
    intro l
    induction l with
    | nil => intro s hs; exact hs
    | cons a rest ih => intro s hs; exact ih _ (step_preserves ps s a hs)
  exact hstep acts initState concInv_init

/-- Two subsystems: `a` publishes `{"v": 7}` each round, `b` reads `a`'s
latest metrics (`get_metric("a", ...)`) each round. -/
def psAB : SimParams :=
  ⟨[⟨"a", fun _ => [BodyOp.publish [("v", Scalar.int 7)]]⟩,
    ⟨"b", fun _ => [BodyOp.readPeer "a"]⟩]⟩

/-- A legal interleaving of round 1: the kernel opens the tick, both
workers pass the barrier, the kernel clears the event and increments the
tick to 1, then `a` publishes (stamped tick 1) before `b` reads. -/
def traceAB : List Act :=
  [Act.kernelStep, Act.workerStep 0, Act.workerStep 1, Act.workerStep 0,
   Act.workerStep 1, Act.kernelStep, Act.kernelStep, Act.kernelStep,
   Act.workerStep 0, Act.workerStep 0, Act.workerStep 1]

/-- The claim as stated, over the interleaving semantics: whatever the
schedule, a worker's `get_metric` during its tick-T work phase returns
either the absent default or a snapshot the peer published for a tick
strictly earlier than T. -/
def C1_claim (ps : SimParams) : Prop :=
  ∀ (acts : List Act) (o : SimObs) (t : Nat) (d : Dict),
    o ∈ (execTrace ps acts).obs → o.result = some (t, d) → t < o.readerRound

/-- C1 counterexample: there is only one barrier rendezvous per round, so
publishes and peer reads happen concurrently in the same inter-barrier
window.  In the exhibited interleaving, worker `b`, during its round-1
work phase (kernel tick index 1), observes the snapshot `a` published in
that same round, stamped with tick 1 — not with a tick strictly earlier
than 1. -/
theorem C1_counterexample : ¬ C1_claim psAB := by
  intro hcl
  have := hcl traceAB ⟨1, "a", 1, some (1, [("v", Scalar.int 7)])⟩ 1
    [("v", Scalar.int 7)] (by decide) rfl
  exact absurd this (by decide)

/-- C1 amended: what the protocol does guarantee, in every interleaving:
a worker's `get_metric` during its tick-T work phase observes either the
absent default or a snapshot its peer really published, stamped with a
tick at most T — same-tick visibility is possible, future ticks are not. -/
theorem C1_observation_lag (ps : SimParams) (acts : List Act) (o : SimObs)
    (t : Nat) (d : Dict)
    (ho : o ∈ (execTrace ps acts).obs) (hr : o.result = some (t, d)) :
    t ≤ o.readerRound ∧ (⟨o.peer, t, d⟩ : PubRec) ∈ (execTrace ps acts).pubs :=
  (concInv_execTrace ps acts).2.2.2.2 o ho t d hr

/-- C1 witness for the amended theorem, at the concrete interleaving. -/
theorem C1_observation_lag_witness :
    1 ≤ 1 ∧ (⟨"a", 1, [("v", Scalar.int 7)]⟩ : PubRec) ∈
      (execTrace psAB traceAB).pubs :=
  C1_observation_lag psAB traceAB ⟨1, "a", 1, some (1, [("v", Scalar.int 7)])⟩ 1
    [("v", Scalar.int 7)] (by decide) rfl
